import Mathlib

/-!
Shallow embedding of IntelOwl's analyzer execution core:
`api_app/script_analyzers/utils.py` and
`api_app/script_analyzers/classes.py`.

Python dict-based reports become a `Report` structure; the `success` key may
be absent in a report handed to the aggregator, so it is modelled as an
`Option Bool` (`none` = key missing), and `dict.get("success", False)`
becomes `Option.getD false`.  The Django `Job` row becomes a `Job` structure
passed explicitly through each operation.  `transaction.atomic()` rollback
semantics are modelled by having the exceptional exit of the transaction
return the caller's original job state.  Wall-clock times are `Int`.
-/

/-- One analyzer report, the dict built by `get_basic_report_template` and
finalized by `start`.  `success = none` models a dict lacking the key;
`report = none` models the initial empty payload dict. -/
structure Report where
  name : String
  success : Option Bool
  report : Option Nat
  errors : List String
  process_time : Int
  started_time : Int
  started_time_str : String
deriving Repr, DecidableEq

/-- The Job record fields touched by this core
(`status`, `analyzers_to_execute`, `analysis_reports`,
`finished_analysis_time`, `errors`). -/
structure Job where
  status : String
  analyzers_to_execute : List String
  analysis_reports : List Report
  finished_analysis_time : Option Int
  errors : List String
deriving Repr, DecidableEq

/-- `utils.set_job_status` / `classes.set_job_status`: extends `errors` when
the argument is truthy (Python `if errors:` is false for `None` and `[]`),
then sets `status` and saves. -/
def set_job_status (job : Job) (status : String) (errors : Option (List String)) : Job :=
  let job :=
    match errors with
    | some es => if es.isEmpty then job else { job with errors := job.errors ++ es }
    | none => job
  { job with status := status }

/-- The terminal-status computation of `set_report_and_cleanup` (the body of
the `num_analysis_reports == num_analyzers_to_execute` branch): count the
reports whose `get("success", False)` is falsy and pick the status. -/
def computeStatusToSet (reports : List Report) : String :=
  let failed_analyzers :=
    reports.foldl (fun acc r => if !(r.success.getD false) then acc + 1 else acc) 0
  if failed_analyzers = reports.length then "failed"
  else if 1 ≤ failed_analyzers then "reported_with_fails"
  else "reported_without_fails"

/-- Exceptions that can escape the `try` block of `set_report_and_cleanup`.
`unexpected` carries the post-append job state because the Python handler
keeps using the local `job_object` after catching. -/
inductive SubmitExc where
  | alreadyFailed
  | unexpected (msg : String) (jobAtRaise : Job)
deriving Repr

/-- The `try` block of `set_report_and_cleanup`.  Inside the transaction the
report is appended and saved, then the sticky-failed check runs; raising
`AlreadyFailedJobException` there makes `transaction.atomic()` roll the
append back (the caller's handler therefore sees the original job).  After
the transaction, if this submission completed the expected report count, the
terminal status is computed and persisted; `fault` injects an arbitrary
unexpected exception at that point (e.g. a persistence failure), which the
caller's `except Exception` handler must recover. -/
def submitBody (now : Int) (fault : Option String) (job : Job) (report : Report) :
    Except SubmitExc Job :=
  let j := { job with analysis_reports := job.analysis_reports ++ [report] }
  if j.status = "failed" then
    .error .alreadyFailed
  else
    let num_analysis_reports := j.analysis_reports.length
    let num_analyzers_to_execute := j.analyzers_to_execute.length
    if num_analysis_reports = num_analyzers_to_execute then
      match fault with
      | some e => .error (.unexpected e j)
      | none =>
        let j := set_job_status j (computeStatusToSet j.analysis_reports) none
        .ok { j with finished_analysis_time := some now }
    else
      .ok j

/-- `set_report_and_cleanup(job_id, report)`: runs the `try` block and the two
`except` handlers.  `AlreadyFailedJobException` is logged and swallowed with
the transaction rolled back; any other exception forces the job to `failed`
with the error text recorded and sets `finished_analysis_time`.  The function
is total: no exception propagates to the calling analyzer. -/
def set_report_and_cleanup (now : Int) (fault : Option String) (job : Job) (report : Report) :
    Job :=
  match submitBody now fault job report with
  | .ok j => j
  | .error .alreadyFailed => job
  | .error (.unexpected e j) =>
    { set_job_status j "failed" (some [e]) with finished_analysis_time := some now }

/-- A sequence of submissions, one `set_report_and_cleanup` call per report,
in list order (no injected fault). -/
def submitAll (now : Int) (job : Job) (reports : List Report) : Job :=
  reports.foldl (set_report_and_cleanup now none) job

/-!  Lifecycle runner: `BaseAnalyzerMixin.start` and its helpers
(`classes.py`).  The overridable hooks and `run` are modelled by data:
`before_run` is `none` when the hook returns normally and `some e` when it
raises `e` (it is invoked before the `try` block, so such an exception is
not contained); `RunOutcome` is the behaviour of `self.run()`. -/

/-- The behaviour of one `run()` invocation: normal return of an opaque
result, an anticipated analyzer exception
(`AnalyzerConfigurationException` / `AnalyzerRunException`), or any other
exception. -/
inductive RunOutcome where
  | ok (result : Nat)
  | analyzerExc (msg : String)
  | baseExc (msg : String)
deriving Repr, DecidableEq

/-- Whether this `run()` behaviour raises. -/
def RunOutcome.raises : RunOutcome → Bool
  | .ok _ => false
  | _ => true

/-- `get_basic_report_template(analyzer_name)`: the fresh report dict.
`started_time` and `started_time_str` come from the clock. -/
def get_basic_report_template (analyzer_name : String) (started_time : Int)
    (started_time_str : String) : Report :=
  { name := analyzer_name
    success := some false
    report := none
    errors := []
    process_time := 0
    started_time := started_time
    started_time_str := started_time_str }

/-- `BaseAnalyzerMixin._handle_analyzer_exception`: appends the formatted
message and leaves `success` false. -/
def handle_analyzer_exception (job_id : Nat) (analyzer_name : String) (err : String)
    (report : Report) : Report :=
  let error_message :=
    "job_id:" ++ toString job_id ++ ", analyzer: '" ++ analyzer_name ++
      "'. Analyzer error: '" ++ err ++ "'"
  { report with errors := report.errors ++ [error_message], success := some false }

/-- `BaseAnalyzerMixin._handle_base_exception`: appends `str(err)` (the
formatted message is only logged) and leaves `success` false. -/
def handle_base_exception (err : String) (report : Report) : Report :=
  { report with errors := report.errors ++ [err], success := some false }

/-- `BaseAnalyzerMixin.start`.  `before_run()` runs outside the `try`
block, so `before_run = some e` escapes as `.error e`.  Otherwise the
report template is built, `run`'s outcome is recorded (normal completion
sets the payload and `success = True`; either exception kind is handled and
swallowed), `process_time` is set from the clock, and the report is handed
to `set_report_and_cleanup`.  `after_run` (a logging hook, line 96) is not
modelled as raising because the claimwork quantifies only over `before_run`,
`run` and report construction.  Returns the finalized report and the job
state after submission. -/
def start (before_run : Option String) (outcome : RunOutcome) (job_id : Nat)
    (analyzer_name : String) (started_time now : Int) (started_time_str : String)
    (fault : Option String) (job : Job) : Except String (Report × Job) :=
  match before_run with
  | some e => .error e
  | none =>
    let report := get_basic_report_template analyzer_name started_time started_time_str
    let report :=
      match outcome with
      | .ok result => { report with report := some result, success := some true }
      | .analyzerExc e => handle_analyzer_exception job_id analyzer_name e report
      | .baseExc e => handle_base_exception e report
    let report := { report with process_time := now - report.started_time }
    let job := set_report_and_cleanup now fault job report
    .ok (report, job)

/-!  Polling client: `DockerBasedAnalyzer` (`classes.py`).  The worker is
modelled as a function from the try index (`chance`, starting at 0) to the
result of `_query_for_result`: either a raised `requests.RequestException`
(`.error`) or a `(status_code, json_data)` pair. -/

/-- The JSON body returned by the worker: the `status` field read by
`json_data.get("status", None)` (`none` = key missing) plus the rest of the
payload, opaque to the poller. -/
structure JsonData where
  status : Option String
  payload : Nat
deriving Repr, DecidableEq

/-- The terminal statuses recognized by `_poll_for_result` (line 309). -/
def pollTerminalStatuses : List String := ["success", "reported_with_fails", "failed"]

/-- `analysis_status in ["success", "reported_with_fails", "failed"]`:
false when the `status` key is missing (`None` is not in the list). -/
def statusIsTerminal : Option String → Bool
  | some s => pollTerminalStatuses.contains s
  | none => false

/-- How `_poll_for_result` can fail: an `AnalyzerRunException` wrapping a
transport error (line 307) or the poll-budget-exhausted
`AnalyzerRunException` (line 321). -/
inductive PollError where
  | transport (msg : String)
  | exhausted
deriving Repr, DecidableEq

/-- The `for chance in range(self.max_tries)` loop of `_poll_for_result`,
unrolled as recursion on the remaining tries.  Returns the outcome together
with the number of queries actually made.  Each iteration sleeps, queries,
re-raises a transport error as an `AnalyzerRunException`, returns the body
on a terminal `status`, and otherwise continues (a 404 status code is
`pass`, anything else logs progress; both just loop). -/
def pollAux (responses : Nat → Except String (Nat × JsonData)) :
    Nat → Nat → Except PollError JsonData × Nat
  | _, 0 => (.error .exhausted, 0)
  | chance, remaining + 1 =>
    match responses chance with
    | .error e => (.error (.transport e), 1)
    | .ok (_, json_data) =>
      if statusIsTerminal json_data.status then
        (.ok json_data, 1)
      else
        let rest := pollAux responses (chance + 1) remaining
        (rest.1, rest.2 + 1)

/-- `DockerBasedAnalyzer._poll_for_result(req_key)`: run the loop for
`max_tries` tries from the first chance. -/
def poll_for_result (responses : Nat → Except String (Nat × JsonData))
    (max_tries : Nat) : Except PollError JsonData × Nat :=
  pollAux responses 0 max_tries

/-- `requests.Response.raise_for_status()`: raises `HTTPError` for 4xx and
5xx status codes, returns `None` otherwise. -/
def raise_for_status (status_code : Nat) : Except String Unit :=
  if 400 ≤ status_code ∧ status_code < 500 then
    .error (toString status_code ++ " Client Error")
  else if 500 ≤ status_code ∧ status_code < 600 then
    .error (toString status_code ++ " Server Error")
  else
    .ok ()

/-- `DockerBasedAnalyzer._check_status_code(name, req)`: translates the
worker's HTTP response into an `AnalyzerRunException` (`.error`) or `True`.
The 400 body is `{"error": <message>}` per the worker wire contract, so the
worker-supplied message is a `String` argument. -/
def check_status_code (name : String) (status_code : Nat) (body_error : String) :
    Except String Bool :=
  if status_code = 404 then
    .error (name ++ " docker container is not running.")
  else if status_code = 400 then
    .error body_error
  else if status_code = 500 then
    .error ("Internal Server Error in " ++ name ++ " docker container")
  else
    match raise_for_status status_code with
    | .error e => .error e
    | .ok _ => .ok true

/-!  Helper lemmas shared by the claim theorems. -/

/-- The counting loop of `set_report_and_cleanup` is `List.countP`. -/
theorem foldl_count_eq_countP (p : Report → Bool) (rs : List Report) (acc : Nat) :
    rs.foldl (fun acc r => if p r then acc + 1 else acc) acc = acc + rs.countP p := by
  induction rs generalizing acc with
  | nil => simp
  | cons r rs ih =>
    by_cases h : p r
    · simp [List.countP_cons, h, ih]
      omega
    · simp [List.countP_cons, h, ih]

/-- For a nonempty report list, `computeStatusToSet` is the three-way split
the spec describes: all succeeded, all failed, or mixed. -/
theorem computeStatusToSet_spec (rs : List Report) (h : rs ≠ []) :
    computeStatusToSet rs =
      if rs.all (fun r => r.success.getD false) then "reported_without_fails"
      else if rs.all (fun r => !(r.success.getD false)) then "failed"
      else "reported_with_fails" := by
  have hlen : 0 < rs.length := List.length_pos.mpr h
  unfold computeStatusToSet
  rw [foldl_count_eq_countP]
  simp only [Nat.zero_add]
  by_cases hallf : rs.all (fun r => !(r.success.getD false))
  · have hc : rs.countP (fun r => !(r.success.getD false)) = rs.length :=
      List.countP_eq_length.mpr (by simpa [List.all_eq_true] using hallf)
    have hnotall : ¬ rs.all (fun r => r.success.getD false) := by
      rcases List.exists_mem_of_ne_nil rs h with ⟨x, hx⟩
      have := (List.all_eq_true.mp hallf) x hx
      simp only [List.all_eq_true]
      intro hall
      have := hall x hx
      simp_all
    simp [hc, hallf, hnotall]
  · have hlt : rs.countP (fun r => !(r.success.getD false)) ≠ rs.length := by
      intro hc
      exact hallf (by simpa [List.all_eq_true] using List.countP_eq_length.mp hc)
    by_cases hall : rs.all (fun r => r.success.getD false)
    · have hc : rs.countP (fun r => !(r.success.getD false)) = 0 :=
        List.countP_eq_zero.mpr (by
          intro x hx
          have := (List.all_eq_true.mp hall) x hx
          simp_all)
      simp only [hc, hall, if_true]
      rw [if_neg (by omega)]
      simp
    · have hpos : 0 < rs.countP (fun r => !(r.success.getD false)) := by
        simp only [List.all_eq_true, not_forall] at hall
        rcases hall with ⟨x, hx, hfx⟩
        exact List.countP_pos_iff.mpr ⟨x, hx, by simp_all⟩
      have h1 : 1 ≤ rs.countP (fun r => !(r.success.getD false)) := hpos
      simp [hlt, hall, hallf, h1]

/-- A submission to an already-failed job is rolled back: the job is
returned unchanged whatever the injected fault. -/
theorem submit_step_failed (now : Int) (fault : Option String) (j : Job) (r : Report)
    (h : j.status = "failed") : set_report_and_cleanup now fault j r = j := by
  simp [set_report_and_cleanup, submitBody, h]

/-- A submission that does not reach the expected report count only appends
the report. -/
theorem submit_step_not_last (now : Int) (j : Job) (r : Report)
    (hst : j.status ≠ "failed")
    (hlen : j.analysis_reports.length + 1 ≠ j.analyzers_to_execute.length) :
    set_report_and_cleanup now none j r =
      { j with analysis_reports := j.analysis_reports ++ [r] } := by
  simp [set_report_and_cleanup, submitBody, hst, hlen]

/-- The completing submission appends the report, sets the computed terminal
status and sets `finished_analysis_time`. -/
theorem submit_step_last (now : Int) (j : Job) (r : Report)
    (hst : j.status ≠ "failed")
    (hlen : j.analysis_reports.length + 1 = j.analyzers_to_execute.length) :
    set_report_and_cleanup now none j r =
      { j with analysis_reports := j.analysis_reports ++ [r],
               status := computeStatusToSet (j.analysis_reports ++ [r]),
               finished_analysis_time := some now } := by
  simp [set_report_and_cleanup, submitBody, set_job_status, hst, hlen]

/-- Unfolding one submission of a sequence. -/
theorem submitAll_cons (now : Int) (j : Job) (r : Report) (rs : List Report) :
    submitAll now j (r :: rs) = submitAll now (set_report_and_cleanup now none j r) rs := rfl

/-- A sequence of submissions that never reaches the expected count only
appends the reports in order. -/
theorem submitAll_not_completing (now : Int) (rs : List Report) (j : Job)
    (hst : j.status ≠ "failed")
    (hlen : j.analysis_reports.length + rs.length < j.analyzers_to_execute.length) :
    submitAll now j rs = { j with analysis_reports := j.analysis_reports ++ rs } := by
  induction rs generalizing j with
  | nil => simp [submitAll]
  | cons r rs ih =>
    rw [submitAll_cons,
      submit_step_not_last now j r hst (by simp at hlen; omega)]
    rw [ih { j with analysis_reports := j.analysis_reports ++ [r] } hst
      (by simp at hlen ⊢; omega)]
    simp

/-- A sequence of submissions that ends exactly at the expected count
appends all the reports and closes the job with the computed terminal
status and `finished_analysis_time`. -/
theorem submitAll_completes (now : Int) (rs : List Report) (j : Job)
    (hst : j.status ≠ "failed") (hne : rs ≠ [])
    (hlen : j.analysis_reports.length + rs.length = j.analyzers_to_execute.length) :
    submitAll now j rs =
      { j with analysis_reports := j.analysis_reports ++ rs,
               status := computeStatusToSet (j.analysis_reports ++ rs),
               finished_analysis_time := some now } := by
  induction rs generalizing j with
  | nil => exact absurd rfl hne
  | cons r rs ih =>
    cases rs with
    | nil =>
      rw [submitAll_cons, submit_step_last now j r hst (by simp at hlen; omega)]
      simp [submitAll]
    | cons r2 rs2 =>
      rw [submitAll_cons,
        submit_step_not_last now j r hst (by simp at hlen; omega)]
      rw [ih { j with analysis_reports := j.analysis_reports ++ [r] }
        hst (by simp) (by simp at hlen ⊢; omega)]
      simp

/-- `computeStatusToSet` always produces one of the three terminal
statuses. -/
theorem computeStatusToSet_terminal (rs : List Report) :
    computeStatusToSet rs = "reported_without_fails"
      ∨ computeStatusToSet rs = "failed"
      ∨ computeStatusToSet rs = "reported_with_fails" := by
  cases rs with
  | nil => right; left; decide
  | cons r rs =>
    rw [computeStatusToSet_spec _ (by simp)]
    split_ifs <;> simp

/-- Whatever branch `set_report_and_cleanup` takes, the analyzer list is
untouched and the report list is either unchanged (sticky-failed rollback)
or extended by exactly the submitted report. -/
theorem submit_step_reports (now : Int) (fault : Option String) (j : Job) (r : Report) :
    (set_report_and_cleanup now fault j r).analysis_reports
        = (if j.status = "failed" then j.analysis_reports
           else j.analysis_reports ++ [r])
    ∧ (set_report_and_cleanup now fault j r).analyzers_to_execute
        = j.analyzers_to_execute := by
  by_cases h : j.status = "failed"
  · simp [set_report_and_cleanup, submitBody, h]
  · by_cases hlen : j.analysis_reports.length + 1 = j.analyzers_to_execute.length
    · cases fault with
      | some e => simp [set_report_and_cleanup, submitBody, set_job_status, h, hlen]
      | none => simp [set_report_and_cleanup, submitBody, set_job_status, h, hlen]
    · cases fault with
      | some e => simp [set_report_and_cleanup, submitBody, set_job_status, h, hlen]
      | none => simp [set_report_and_cleanup, submitBody, set_job_status, h, hlen]

/-!  Concrete sample values used by the closed witness and counterexample
theorems. -/

/-- A succeeded report. -/
def sampleOk : Report :=
  { name := "a", success := some true, report := some 1, errors := [],
    process_time := 1, started_time := 0, started_time_str := "t" }

/-- A failed report (`success` present and false). -/
def sampleFail : Report := { sampleOk with success := some false }

/-- A report whose dict lacks the `success` key entirely. -/
def sampleNoKey : Report := { sampleOk with success := none }

/-- A running job expecting two analyzer reports. -/
def sampleJob2 : Job :=
  { status := "running", analyzers_to_execute := ["a", "b"],
    analysis_reports := [], finished_analysis_time := none, errors := [] }

/-- A running job expecting one analyzer report. -/
def sampleJob1 : Job := { sampleJob2 with analyzers_to_execute := ["a"] }

/-- C1: for a job with a fixed `analyzers_to_execute` list of length N ≥ 1
that is not in status `failed`, after each of the N analyzers has submitted
exactly once, in any order (`rs` ranges over every ordering), the status is
terminal and determined only by the reports' success flags
(all true → `reported_without_fails`, all false → `failed`, mixed →
`reported_with_fails`), `finished_analysis_time` is set exactly once (it is
still unset after every proper prefix of the run), and a duplicate
submission re-triggers neither the status computation nor the
`finished_analysis_time` write. -/
theorem C1_all_submitted_terminal (now now2 : Int) (j0 : Job) (rs : List Report)
    (dup : Report)
    (hst : j0.status ≠ "failed")
    (hrep : j0.analysis_reports = [])
    (hfin : j0.finished_analysis_time = none)
    (hN : rs.length = j0.analyzers_to_execute.length)
    (hpos : 1 ≤ rs.length) :
    (submitAll now j0 rs).status =
        (if rs.all (fun r => r.success.getD false) then "reported_without_fails"
         else if rs.all (fun r => !(r.success.getD false)) then "failed"
         else "reported_with_fails")
    ∧ ((submitAll now j0 rs).status = "reported_without_fails"
        ∨ (submitAll now j0 rs).status = "failed"
        ∨ (submitAll now j0 rs).status = "reported_with_fails")
    ∧ (submitAll now j0 rs).finished_analysis_time = some now
    ∧ (∀ k, k < rs.length →
        (submitAll now j0 (rs.take k)).finished_analysis_time = none)
    ∧ (set_report_and_cleanup now2 none (submitAll now j0 rs) dup).status
        = (submitAll now j0 rs).status
    ∧ (set_report_and_cleanup now2 none (submitAll now j0 rs) dup).finished_analysis_time
        = (submitAll now j0 rs).finished_analysis_time := by
  have hne : rs ≠ [] := by
    intro hn
    rw [hn] at hpos
    simp at hpos
  have hcomp := submitAll_completes now rs j0 hst hne (by rw [hrep]; simpa using hN)
  rw [hrep] at hcomp
  simp only [List.nil_append] at hcomp
  refine ⟨?_, ?_, ?_, ?_, ?_, ?_⟩
  · rw [hcomp]
    exact computeStatusToSet_spec rs hne
  · rw [hcomp]
    exact computeStatusToSet_terminal rs
  · rw [hcomp]
  · intro k hk
    rw [submitAll_not_completing now (rs.take k) j0 hst
      (by rw [hrep, ← hN]; simp; omega)]
    exact hfin
  · by_cases hf : (submitAll now j0 rs).status = "failed"
    · rw [submit_step_failed now2 none _ dup hf]
    · rw [submit_step_not_last now2 _ dup hf (by rw [hcomp]; simp [← hN])]
  · by_cases hf : (submitAll now j0 rs).status = "failed"
    · rw [submit_step_failed now2 none _ dup hf]
    · rw [submit_step_not_last now2 _ dup hf (by rw [hcomp]; simp [← hN])]

/-- Witness for C1 at a concrete two-analyzer job with one success and one
failure. -/
theorem C1_witness :
    sampleJob2.status ≠ "failed"
    ∧ 1 ≤ ([sampleOk, sampleFail] : List Report).length
    ∧ (submitAll 7 sampleJob2 [sampleOk, sampleFail]).status = "reported_with_fails"
    ∧ (submitAll 7 sampleJob2 [sampleOk, sampleFail]).finished_analysis_time = some 7 := by
  have h := C1_all_submitted_terminal 7 9 sampleJob2 [sampleOk, sampleFail] sampleOk
    (by decide) rfl rfl (by decide) (by decide)
  refine ⟨by decide, by decide, ?_, h.2.2.1⟩
  rw [h.1]
  decide

/-- C2: submitting a report to a job already in status `failed` mutates
nothing — the transaction rolls the append back, the status,
`finished_analysis_time` and `errors` stay untouched, and the call returns
normally (the `AlreadyFailedJobException` is caught inside). -/
theorem C2_sticky_failed_no_mutation (now : Int) (fault : Option String) (j : Job)
    (r : Report) (h : j.status = "failed") :
    set_report_and_cleanup now fault j r = j :=
  submit_step_failed now fault j r h

/-- Witness for C2 at a concrete failed job. -/
theorem C2_witness :
    ({ sampleJob2 with status := "failed" } : Job).status = "failed"
    ∧ set_report_and_cleanup 9 none { sampleJob2 with status := "failed" } sampleOk
        = { sampleJob2 with status := "failed" } :=
  ⟨rfl, C2_sticky_failed_no_mutation 9 none { sampleJob2 with status := "failed" }
    sampleOk rfl⟩

/-- Counterexample to C4: a one-analyzer job reaches
`len(analysis_reports) = len(analyzers_to_execute)` through a successful
submission, yet a further (duplicate) submission appends another report and
pushes the count past the bound — the code has no cap, only the
sticky-failed check stops appends. -/
theorem C4_counterexample :
    (submitAll 7 sampleJob1 [sampleOk]).analysis_reports.length
        = (submitAll 7 sampleJob1 [sampleOk]).analyzers_to_execute.length
    ∧ ¬ ((set_report_and_cleanup 9 none (submitAll 7 sampleJob1 [sampleOk])
            sampleOk).analysis_reports.length
          ≤ (set_report_and_cleanup 9 none (submitAll 7 sampleJob1 [sampleOk])
            sampleOk).analyzers_to_execute.length) := by
  decide

/-- C4 as amended: the bound `len(analysis_reports) ≤ len(analyzers_to_execute)`
is preserved by any submission made while the report count is still below
the expected count; once the counts are equal, a further submission appends
nothing only when the job's status is `failed` — otherwise it appends
exactly one more report (so the bound can be exceeded by duplicate
submissions to a non-failed job). -/
theorem C4_amended_bound (now : Int) (fault : Option String) (j : Job) (r : Report) :
    (j.analysis_reports.length < j.analyzers_to_execute.length →
      (set_report_and_cleanup now fault j r).analysis_reports.length
          ≤ (set_report_and_cleanup now fault j r).analyzers_to_execute.length)
    ∧ (j.status = "failed" →
      (set_report_and_cleanup now fault j r).analysis_reports = j.analysis_reports)
    ∧ (j.status ≠ "failed" →
      (set_report_and_cleanup now fault j r).analysis_reports
          = j.analysis_reports ++ [r]) := by
  rcases submit_step_reports now fault j r with ⟨h1, h2⟩
  refine ⟨?_, ?_, ?_⟩
  · intro hlt
    rw [h1, h2]
    split_ifs with hf
    · omega
    · simp only [List.length_append, List.length_cons, List.length_nil]
      omega
  · intro h
    rw [h1, if_pos h]
  · intro h
    rw [h1, if_neg h]

/-- Witness for the amended C4 at a concrete below-count submission and a
concrete failed job. -/
theorem C4_witness :
    sampleJob2.analysis_reports.length < sampleJob2.analyzers_to_execute.length
    ∧ (set_report_and_cleanup 7 none sampleJob2 sampleOk).analysis_reports.length
        ≤ (set_report_and_cleanup 7 none sampleJob2 sampleOk).analyzers_to_execute.length
    ∧ (set_report_and_cleanup 7 none sampleJob2 sampleOk).analysis_reports
        = sampleJob2.analysis_reports ++ [sampleOk] :=
  ⟨by decide,
    (C4_amended_bound 7 none sampleJob2 sampleOk).1 (by decide),
    (C4_amended_bound 7 none sampleJob2 sampleOk).2.2 (by decide)⟩

/-- C5: an unexpected exception raised while computing or persisting the
terminal status (modelled by the injected `fault`) is caught by the
`except Exception` handler: the job is forced to status `failed` with the
error message appended to its `errors`, `finished_analysis_time` is set,
the appended report stays (the transaction had committed), and
`set_report_and_cleanup` returns a job instead of re-raising. -/
theorem C5_unexpected_error_recovered (now : Int) (e : String) (j : Job) (r : Report)
    (hst : j.status ≠ "failed")
    (hlen : j.analysis_reports.length + 1 = j.analyzers_to_execute.length) :
    set_report_and_cleanup now (some e) j r =
      { j with analysis_reports := j.analysis_reports ++ [r],
               status := "failed",
               errors := j.errors ++ [e],
               finished_analysis_time := some now } := by
  simp [set_report_and_cleanup, submitBody, set_job_status, hst, hlen]

/-- Witness for C5 at a concrete completing submission with an injected
persistence failure. -/
theorem C5_witness :
    sampleJob1.status ≠ "failed"
    ∧ set_report_and_cleanup 9 (some "db down") sampleJob1 sampleOk =
        { sampleJob1 with analysis_reports := [sampleOk], status := "failed",
                          errors := ["db down"], finished_analysis_time := some 9 } := by
  have h := C5_unexpected_error_recovered 9 "db down" sampleJob1 sampleOk
    (by decide) (by decide)
  refine ⟨by decide, ?_⟩
  rw [h]
  decide

/-- C10: the terminal-status computation reads each report with
`get("success", False)`, so a report lacking the `success` key counts as a
failed analyzer; a completing submission on a job all of whose reports
(including the submitted one) lack the key yields terminal status
`failed`. -/
theorem C10_missing_success_key_failed (now : Int) (j : Job) (r : Report)
    (hst : j.status ≠ "failed")
    (hlen : j.analysis_reports.length + 1 = j.analyzers_to_execute.length)
    (hall : ∀ x ∈ j.analysis_reports ++ [r], x.success = none) :
    (set_report_and_cleanup now none j r).status = "failed" := by
  rw [submit_step_last now j r hst hlen]
  show computeStatusToSet (j.analysis_reports ++ [r]) = "failed"
  rw [computeStatusToSet_spec _ (by simp)]
  have h1 : (j.analysis_reports ++ [r]).all (fun x => !(x.success.getD false)) := by
    rw [List.all_eq_true]
    intro x hx
    simp [hall x hx]
  have h2 : ¬ (j.analysis_reports ++ [r]).all (fun x => x.success.getD false) = true := by
    rw [List.all_eq_true]
    intro hcontra
    have hr := hcontra r (by simp)
    rw [hall r (by simp)] at hr
    simp at hr
  simp [h1, h2]

/-- Witness for C10 at a concrete one-analyzer job whose single report
lacks the `success` key. -/
theorem C10_witness :
    sampleJob1.status ≠ "failed"
    ∧ (∀ x ∈ sampleJob1.analysis_reports ++ [sampleNoKey], x.success = none)
    ∧ (set_report_and_cleanup 7 none sampleJob1 sampleNoKey).status = "failed" :=
  ⟨by decide, by decide,
    C10_missing_success_key_failed 7 sampleJob1 sampleNoKey (by decide) (by decide)
      (by decide)⟩

/-- The report produced by `start` when `run` raises an unexpected
exception `"kaboom"` at job 1, analyzer `"a"`, started at 2, finished at 5;
used by the concrete witness below. -/
def sampleCrashReport : Report :=
  { name := "a", success := some false, report := none, errors := ["kaboom"],
    process_time := 3, started_time := 2, started_time_str := "t" }

/-- Counterexample to C3: `before_run()` is invoked on line 80 of
`classes.py`, before the `try` block opens on line 81, so an exception
raised by `before_run` escapes `start()`, contradicting the claim that
`start()` never raises for every behaviour of `before_run`. -/
theorem C3_counterexample :
    start (some "boom") (RunOutcome.ok 0) 1 "a" 2 5 "t" none sampleJob1
      = Except.error "boom" := rfl

/-- C3 as amended: when `before_run` completes normally, then for every
behaviour of `run()` (normal return or any raised exception kind) `start()`
returns normally, and when `run()` raised, the finalized report has
`success = false`, a non-empty `errors` list, and `process_time` equal to
the elapsed time since the report's `started_time`. -/
theorem C3_runner_containment (outcome : RunOutcome) (job_id : Nat) (name : String)
    (t0 now : Int) (tstr : String) (fault : Option String) (j : Job) :
    (start none outcome job_id name t0 now tstr fault j).isOk = true
    ∧ (∀ rep j2,
        start none outcome job_id name t0 now tstr fault j = Except.ok (rep, j2) →
          rep.process_time = now - t0
          ∧ (outcome.raises = true → rep.success = some false ∧ rep.errors ≠ [])) := by
  cases outcome with
  | ok res =>
    refine ⟨rfl, ?_⟩
    intro rep j2 hok
    simp only [start, get_basic_report_template, Except.ok.injEq, Prod.mk.injEq] at hok
    obtain ⟨h1, h2⟩ := hok
    subst h1
    exact ⟨rfl, by simp [RunOutcome.raises]⟩
  | analyzerExc e =>
    refine ⟨rfl, ?_⟩
    intro rep j2 hok
    simp only [start, get_basic_report_template, handle_analyzer_exception,
      Except.ok.injEq, Prod.mk.injEq] at hok
    obtain ⟨h1, h2⟩ := hok
    subst h1
    exact ⟨rfl, fun _ => ⟨rfl, by simp⟩⟩
  | baseExc e =>
    refine ⟨rfl, ?_⟩
    intro rep j2 hok
    simp only [start, get_basic_report_template, handle_base_exception,
      Except.ok.injEq, Prod.mk.injEq] at hok
    obtain ⟨h1, h2⟩ := hok
    subst h1
    exact ⟨rfl, fun _ => ⟨rfl, by simp⟩⟩

/-- Witness for the amended C3 at a concrete unexpected `run` failure. -/
theorem C3_witness :
    RunOutcome.raises (RunOutcome.baseExc "kaboom") = true
    ∧ sampleCrashReport.process_time = 5 - 2
    ∧ sampleCrashReport.success = some false
    ∧ sampleCrashReport.errors ≠ [] := by
  have h := (C3_runner_containment (RunOutcome.baseExc "kaboom") 1 "a" 2 5 "t" none
      sampleJob1).2 sampleCrashReport
    (set_report_and_cleanup 5 none sampleJob1 sampleCrashReport) (by rfl)
  exact ⟨rfl, h.1, (h.2 rfl).1, (h.2 rfl).2⟩

/-- A query result that neither raised nor carried a terminal status: the
polling loop continues past it. -/
def nonTerminalOk : Except String (Nat × JsonData) → Bool
  | .ok (_, d) => !statusIsTerminal d.status
  | .error _ => false

/-- If every remaining query answers non-terminally, the loop exhausts its
budget: it fails and makes exactly `remaining` queries. -/
theorem pollAux_all_nonterminal (responses : Nat → Except String (Nat × JsonData))
    (remaining chance : Nat)
    (h : ∀ i, i < remaining → nonTerminalOk (responses (chance + i)) = true) :
    pollAux responses chance remaining = (.error .exhausted, remaining) := by
  induction remaining generalizing chance with
  | zero => rfl
  | succ n ih =>
    have h0 := h 0 (Nat.succ_pos n)
    rw [Nat.add_zero] at h0
    simp only [pollAux]
    cases hr : responses chance with
    | error e => rw [hr] at h0; simp [nonTerminalOk] at h0
    | ok cd =>
      obtain ⟨code, d⟩ := cd
      rw [hr] at h0
      have hterm : statusIsTerminal d.status = false := by
        simpa [nonTerminalOk] using h0
      simp only [hterm, Bool.false_eq_true, if_false]
      rw [ih (chance + 1) ?_]
      intro i hi
      have := h (i + 1) (by omega)
      rwa [show chance + (i + 1) = chance + 1 + i by omega] at this

/-- If the first `k` queries answer non-terminally and query `k` returns a
terminal status, the loop returns that payload after exactly `k + 1`
queries. -/
theorem pollAux_first_terminal (responses : Nat → Except String (Nat × JsonData))
    (k : Nat) :
    ∀ chance remaining, k < remaining →
    (∀ i, i < k → nonTerminalOk (responses (chance + i)) = true) →
    ∀ code d, responses (chance + k) = .ok (code, d) →
    statusIsTerminal d.status = true →
    pollAux responses chance remaining = (.ok d, k + 1) := by
  induction k with
  | zero =>
    intro chance remaining hk h code d hq hst
    cases remaining with
    | zero => omega
    | succ n =>
      rw [Nat.add_zero] at hq
      simp only [pollAux]
      rw [hq]
      simp [hst]
  | succ m ih =>
    intro chance remaining hk h code d hq hst
    cases remaining with
    | zero => omega
    | succ n =>
      have h0 := h 0 (Nat.succ_pos m)
      rw [Nat.add_zero] at h0
      simp only [pollAux]
      cases hr : responses chance with
      | error e => rw [hr] at h0; simp [nonTerminalOk] at h0
      | ok cd =>
        obtain ⟨c2, d2⟩ := cd
        rw [hr] at h0
        have hterm : statusIsTerminal d2.status = false := by
          simpa [nonTerminalOk] using h0
        simp only [hterm, Bool.false_eq_true, if_false]
        rw [ih (chance + 1) n (by omega) ?_ code d ?_ hst]
        · intro i hi
          have := h (i + 1) (by omega)
          rwa [show chance + (i + 1) = chance + 1 + i by omega] at this
        · rwa [show chance + 1 + m = chance + (m + 1) by omega]

/-- If the first `k` queries answer non-terminally and query `k` raises a
transport error, the loop fails with that error immediately after exactly
`k + 1` queries — no retries follow it. -/
theorem pollAux_transport (responses : Nat → Except String (Nat × JsonData))
    (k : Nat) :
    ∀ chance remaining, k < remaining →
    (∀ i, i < k → nonTerminalOk (responses (chance + i)) = true) →
    ∀ e, responses (chance + k) = .error e →
    pollAux responses chance remaining = (.error (.transport e), k + 1) := by
  induction k with
  | zero =>
    intro chance remaining hk h e hq
    cases remaining with
    | zero => omega
    | succ n =>
      rw [Nat.add_zero] at hq
      simp only [pollAux]
      rw [hq]
  | succ m ih =>
    intro chance remaining hk h e hq
    cases remaining with
    | zero => omega
    | succ n =>
      have h0 := h 0 (Nat.succ_pos m)
      rw [Nat.add_zero] at h0
      simp only [pollAux]
      cases hr : responses chance with
      | error e2 => rw [hr] at h0; simp [nonTerminalOk] at h0
      | ok cd =>
        obtain ⟨c2, d2⟩ := cd
        rw [hr] at h0
        have hterm : statusIsTerminal d2.status = false := by
          simpa [nonTerminalOk] using h0
        simp only [hterm, Bool.false_eq_true, if_false]
        rw [ih (chance + 1) n (by omega) ?_ e ?_]
        · intro i hi
          have := h (i + 1) (by omega)
          rwa [show chance + (i + 1) = chance + 1 + i by omega] at this
        · rwa [show chance + 1 + m = chance + (m + 1) by omega]

/-- C6: for every `max_tries ≥ 1`, if no query ever yields a response whose
`status` is in `{success, reported_with_fails, failed}` (each query either
succeeding non-terminally or 404/not-ready), `_poll_for_result` raises the
poll-budget-exhausted `AnalyzerRunException` and exactly `max_tries`
queries were made. -/
theorem C6_poll_budget_exhausted (responses : Nat → Except String (Nat × JsonData))
    (max_tries : Nat) (_hpos : 1 ≤ max_tries)
    (h : ∀ i, i < max_tries → nonTerminalOk (responses i) = true) :
    poll_for_result responses max_tries = (.error .exhausted, max_tries) := by
  unfold poll_for_result
  apply pollAux_all_nonterminal
  intro i hi
  rw [Nat.zero_add]
  exact h i hi

/-- A fake worker that always answers an in-progress status. -/
def fakeWorkerBusy : Nat → Except String (Nat × JsonData) :=
  fun _ => .ok (200, { status := some "running", payload := 0 })

/-- Witness for C6 with a worker that never reaches a terminal status. -/
theorem C6_witness :
    1 ≤ 3
    ∧ (∀ i, i < 3 → nonTerminalOk (fakeWorkerBusy i) = true)
    ∧ poll_for_result fakeWorkerBusy 3 = (.error .exhausted, 3) :=
  ⟨by decide, by decide, C6_poll_budget_exhausted fakeWorkerBusy 3 (by decide) (by decide)⟩

/-- C7: `_poll_for_result` returns the payload of the first query whose
`status` field is in the terminal set, after exactly `k + 1` queries —
no further queries happen after the terminal one. -/
theorem C7_poll_first_terminal (responses : Nat → Except String (Nat × JsonData))
    (max_tries k code : Nat) (d : JsonData)
    (hk : k < max_tries)
    (h : ∀ i, i < k → nonTerminalOk (responses i) = true)
    (hq : responses k = .ok (code, d))
    (hst : statusIsTerminal d.status = true) :
    poll_for_result responses max_tries = (.ok d, k + 1) := by
  unfold poll_for_result
  apply pollAux_first_terminal responses k 0 max_tries hk ?_ code d ?_ hst
  · intro i hi
    rw [Nat.zero_add]
    exact h i hi
  · rwa [Nat.zero_add]

/-- The spec's fake worker: a non-terminal status twice, then `success`
with payload 30 on the third query. -/
def fakeWorkerThirdTry : Nat → Except String (Nat × JsonData) :=
  fun i =>
    if i < 2 then .ok (200, { status := some "running", payload := i })
    else .ok (200, { status := some "success", payload := 30 })

/-- Witness for C7: with `max_tries = 3` and the worker above,
`_poll_for_result` returns the third payload after exactly 3 queries. -/
theorem C7_witness :
    (2 : Nat) < 3
    ∧ (∀ i, i < 2 → nonTerminalOk (fakeWorkerThirdTry i) = true)
    ∧ poll_for_result fakeWorkerThirdTry 3
        = (.ok { status := some "success", payload := 30 }, 3) :=
  ⟨by decide, by decide,
    C7_poll_first_terminal fakeWorkerThirdTry 3 2 200
      { status := some "success", payload := 30 }
      (by decide) (by decide) rfl (by decide)⟩

/-- C8: if the query at try `k` raises a transport error
(`requests.RequestException`), `_poll_for_result` immediately raises an
`AnalyzerRunException` wrapping it, having made exactly `k + 1` queries —
transport errors are not retried. -/
theorem C8_poll_transport_error (responses : Nat → Except String (Nat × JsonData))
    (max_tries k : Nat) (e : String)
    (hk : k < max_tries)
    (h : ∀ i, i < k → nonTerminalOk (responses i) = true)
    (hq : responses k = .error e) :
    poll_for_result responses max_tries = (.error (.transport e), k + 1) := by
  unfold poll_for_result
  apply pollAux_transport responses k 0 max_tries hk ?_ e ?_
  · intro i hi
    rw [Nat.zero_add]
    exact h i hi
  · rwa [Nat.zero_add]

/-- A fake worker whose second query raises a connection error. -/
def fakeWorkerDrops : Nat → Except String (Nat × JsonData) :=
  fun i =>
    if i = 1 then .error "connection error"
    else .ok (200, { status := some "running", payload := 0 })

/-- Witness for C8: the transport failure on the second query stops the
polling after exactly 2 queries even though 5 were allowed. -/
theorem C8_witness :
    (1 : Nat) < 5
    ∧ fakeWorkerDrops 1 = .error "connection error"
    ∧ poll_for_result fakeWorkerDrops 5 = (.error (.transport "connection error"), 2) :=
  ⟨by decide, rfl,
    C8_poll_transport_error fakeWorkerDrops 5 1 "connection error"
      (by decide) (by decide) rfl⟩

/-- C9: `_check_status_code` is a pure mapping of `(status_code, body)`:
404 → worker-not-running failure, 400 → the worker-supplied error message
from the body, 500 → internal-worker-error failure, any other HTTP-error
code (4xx/5xx, via `raise_for_status`) → a generic HTTP failure, and
anything else → ok (`True`). -/
theorem C9_check_status_code_mapping (name : String) (code : Nat) (body_error : String) :
    (code = 404 → check_status_code name code body_error
        = .error (name ++ " docker container is not running."))
    ∧ (code = 400 → check_status_code name code body_error = .error body_error)
    ∧ (code = 500 → check_status_code name code body_error
        = .error ("Internal Server Error in " ++ name ++ " docker container"))
    ∧ (400 ≤ code → code < 600 → code ≠ 404 → code ≠ 400 → code ≠ 500 →
        ∃ e, check_status_code name code body_error = .error e)
    ∧ ((code < 400 ∨ 600 ≤ code) → check_status_code name code body_error = .ok true) := by
  refine ⟨?_, ?_, ?_, ?_, ?_⟩
  · intro h
    subst h
    simp [check_status_code]
  · intro h
    subst h
    simp [check_status_code]
  · intro h
    subst h
    simp [check_status_code]
  · intro h1 h2 h3 h4 h5
    simp only [check_status_code, raise_for_status]
    rw [if_neg h3, if_neg h4, if_neg h5]
    by_cases hc : code < 500
    · rw [if_pos ⟨h1, hc⟩]
      exact ⟨_, rfl⟩
    · rw [if_neg (by omega), if_pos ⟨by omega, h2⟩]
      exact ⟨_, rfl⟩
  · intro h
    simp only [check_status_code, raise_for_status]
    rw [if_neg (by omega), if_neg (by omega), if_neg (by omega),
      if_neg (by omega), if_neg (by omega)]

/-- Witness for C9 at one concrete status code per case. -/
theorem C9_witness :
    check_status_code "peframe" 404 "b"
        = .error "peframe docker container is not running."
    ∧ check_status_code "peframe" 400 "bad key" = .error "bad key"
    ∧ check_status_code "peframe" 500 "b"
        = .error "Internal Server Error in peframe docker container"
    ∧ (∃ e, check_status_code "peframe" 403 "b" = .error e)
    ∧ check_status_code "peframe" 200 "b" = .ok true :=
  ⟨(C9_check_status_code_mapping "peframe" 404 "b").1 rfl,
    (C9_check_status_code_mapping "peframe" 400 "bad key").2.1 rfl,
    (C9_check_status_code_mapping "peframe" 500 "b").2.2.1 rfl,
    (C9_check_status_code_mapping "peframe" 403 "b").2.2.2.1 (by omega) (by omega)
      (by omega) (by omega) (by omega),
    (C9_check_status_code_mapping "peframe" 200 "b").2.2.2.2 (by omega)⟩
